import Mathlib

/-!
Shallow embedding of `gui/tools/FuseDepthTool.cxx` (TeleSculptor).

The file contains four pieces of logic:
* `load_depth_map`   — reads a VTK XML image file and copies its point-data
  array "Depths" into a vital image, inverting the row order;
* `volume_to_vtk`    — converts a volumetric vital image plus origin/spacing
  into a VTK structured grid carrying one cell-data scalar array;
* `FuseDepthTool::execute` — precondition and configuration checks;
* `FuseDepthTool::run`     — collects (camera, depth map) pairs for frames
  present in both collections, invokes the integration algorithm, and
  publishes the resulting grid.

External collaborators (the VTK reader, the kwiver configuration block, the
integration algorithm, the filesystem) are modelled as explicit inputs.
Machine doubles only ever get copied around in this file, never computed
with, so scalar values are embedded as rationals.
-/

abbrev FrameId := Nat

abbrev PathName := String

/-- VTK name of the point-data array read by load_depth_map. -/
def depthsArrayName : String := "Depths"

/-- VTK name of the cell-data array produced by volume_to_vtk. -/
def reconstructionScalarName : String := "reconstruction_scalar"

/-- BLOCK_IDM, the name of the nested configuration block for the
integration algorithm. -/
def BLOCK_IDM : String := "integrate_depth_maps"

/-- a data array stored in a VTK file: name, element-type marker (the source
performs a dynamic_cast to vtkDoubleArray, which succeeds only for
double-precision arrays), and the stored scalars in file order. -/
structure VtkDataArray where
  name : String
  isDouble : Bool
  values : List ℚ
deriving DecidableEq

/-- a VTK XML image-data file as produced by vtkXMLImageDataReader:
dimensions plus the point-data arrays. -/
structure VtkImageFile where
  dimX : Nat
  dimY : Nat
  dimZ : Nat
  pointArrays : List VtkDataArray
deriving DecidableEq

/-- vtkPointData::GetArray: the array with the given name, if any. -/
def getPointArray (f : VtkImageFile) (nm : String) : Option VtkDataArray :=
  f.pointArrays.find? (fun a => a.name == nm)

/-- GetArray followed by dynamic_cast to vtkDoubleArray: the values of the
named array when it exists and is double-precision, otherwise none (the
null pointer produced by a failed cast). -/
def getDoubleArray (f : VtkImageFile) (nm : String) : Option (List ℚ) :=
  match getPointArray f nm with
  | some a => if a.isDouble then some a.values else none
  | none => none

/-- a kwiver::vital::image holding one depth slice: the memory plane written
through at(x, y), which addresses index y * width + x of the contiguous
buffer allocated for the image. -/
structure DepthImage where
  width : Nat
  height : Nat
  planes : Nat
  mem : Nat → ℚ

/-- image::at(x, y) for the default (contiguous, row-major) layout. -/
def DepthImage.atPix (img : DepthImage) (x y : Nat) : ℚ :=
  img.mem (y * img.width + x)

/-- inner loop of load_depth_map: for x = x0 .. w-1 writes
vals[ptId], vals[ptId+1], ... into memory cells y * w + x. -/
def depthRowAux (w y : Nat) (vals : List ℚ) (x ptId : Nat) (mem : Nat → ℚ) :
    Nat → ℚ :=
  if h : x < w then
    depthRowAux w y vals (x + 1) (ptId + 1)
      (fun idx => if idx = y * w + x then vals.getD ptId 0 else mem idx)
  else mem
termination_by w - x
decreasing_by omega

/-- outer loop of load_depth_map: processes rows y = r-1 down to 0, the
point index advancing by w per row (matching pt_id++ in the source). -/
def depthCols (w : Nat) (vals : List ℚ) : Nat → Nat → (Nat → ℚ) → (Nat → ℚ)
  | 0, _, mem => mem
  | r + 1, ptId, mem => depthCols w vals r (ptId + w) (depthRowAux w r vals 0 ptId mem)

/-- load_depth_map from FuseDepthTool.cxx, applied to the image the reader
produced for the file.  The source dereferences the result of the
dynamic_cast and calls GetValue for every grid point; the none results model
the executions that are undefined in C++ (null array, or reads past the end
of the array). -/
def load_depth_map (f : VtkImageFile) : Option DepthImage :=
  match getDoubleArray f depthsArrayName with
  | none => none
  | some vals =>
    if f.dimX * f.dimY ≤ vals.length then
      some { width := f.dimX, height := f.dimY, planes := f.dimZ,
             mem := depthCols f.dimX vals f.dimY 0 (fun _ => 0) }
    else none

/-- a 3-vector of coordinates (kwiver::vital::vector_3d). -/
structure Vec3 where
  x : ℚ
  y : ℚ
  z : ℚ
deriving DecidableEq

/-- a kwiver::vital::image used as a voxel volume: at(i, j, k) addresses
index (k * height + j) * width + i of the contiguous buffer. -/
structure VolumeImage where
  width : Nat
  height : Nat
  depth : Nat
  mem : Nat → ℚ

/-- image::at(i, j, k) for the default (contiguous) layout. -/
def VolumeImage.atVox (v : VolumeImage) (i j k : Nat) : ℚ :=
  v.mem ((k * v.height + j) * v.width + i)

/-- a named scalar array attached to a VTK data set. -/
structure DataArray where
  name : String
  values : List ℚ
deriving DecidableEq

/-- a vtkImageData: origin, point dimensions, spacing, and cell-data
arrays.  Its implicit points sit at origin + spacing * index, the index
running from 0 to dim - 1 per axis. -/
structure VtkImageGrid where
  origin : Vec3
  dimX : Nat
  dimY : Nat
  dimZ : Nat
  spacing : Vec3
  cellArrays : List DataArray
deriving DecidableEq

/-- a vtkStructuredGrid: same topology, explicit points. -/
structure StructuredGrid where
  dimX : Nat
  dimY : Nat
  dimZ : Nat
  points : List Vec3
  cellArrays : List DataArray
deriving DecidableEq

/-- vtkImageDataToPointSet: converts an image grid into a structured grid
with the same dimensions and data arrays, making the implicit points
explicit (x varying fastest, then y, then z, per VTK point ordering). -/
def imageDataToPointSet (g : VtkImageGrid) : StructuredGrid :=
  { dimX := g.dimX, dimY := g.dimY, dimZ := g.dimZ,
    points :=
      (List.range g.dimZ).flatMap (fun (k : Nat) =>
        (List.range g.dimY).flatMap (fun (j : Nat) =>
          (List.range g.dimX).map (fun (i : Nat) =>
            { x := g.origin.x + g.spacing.x * (i : ℚ),
              y := g.origin.y + g.spacing.y * (j : ℚ),
              z := g.origin.z + g.spacing.z * (k : ℚ) }))),
    cellArrays := g.cellArrays }

/-- scalar values written by the triple loop of volume_to_vtk: pt_id runs
over k (depth), then j (height), then i (width), copying vol.at(i, j, k). -/
def volume_scalar_values (vol : VolumeImage) : List ℚ :=
  (List.range vol.depth).flatMap (fun k =>
    (List.range vol.height).flatMap (fun j =>
      (List.range vol.width).map (fun i => vol.atVox i j k)))

/-- the vtkImageData assembled by volume_to_vtk before conversion: origin,
dimensions and spacing from the arguments, and the single cell-data array
named "reconstruction_scalar". -/
def volume_to_vtk_grid (vol : VolumeImage) (origin spacing : Vec3) : VtkImageGrid :=
  { origin := origin,
    dimX := vol.width, dimY := vol.height, dimZ := vol.depth,
    spacing := spacing,
    cellArrays := [{ name := reconstructionScalarName,
                     values := volume_scalar_values vol }] }

/-- volume_to_vtk from FuseDepthTool.cxx. -/
def volume_to_vtk (vol : VolumeImage) (origin spacing : Vec3) : StructuredGrid :=
  imageDataToPointSet (volume_to_vtk_grid vol origin spacing)

/-- a camera from the tool's camera map; dynamic_pointer_cast to
camera_perspective succeeds exactly when the perspective flag is set. -/
structure Camera where
  camId : Nat
  perspective : Bool
deriving DecidableEq

/-- std::dynamic_pointer_cast to camera_perspective: the camera when it is
perspective, otherwise none (a null shared pointer). -/
def dynCastPerspective (c : Camera) : Option Camera :=
  if c.perspective then some c else none

/-- a kwiver::vital::config_block, modelled as a partial map from keys to
values. -/
def Config := String → Option String

/-- config_block::merge_config: copies every entry of the argument block
into the receiver, overwriting entries that already exist there (so the
argument's values win on conflicting keys). -/
def merge_config (cfg other : Config) : Config :=
  fun k => (other k).or (cfg k)

/-- the state of the tool visible to execute: the ambient camera map, the
depth-map lookup (a possibly-null shared pointer to a map from frame id to
file path), and the tool's ambient configuration. -/
structure ToolState where
  cameras : List (FrameId × Camera)
  depthLookup : Option (List (FrameId × PathName))
  ambientConfig : Config

/-- Modelled from the spec: AbstractTool::hasCameras is declared outside
this excerpt; the spec requires "a non-empty camera set". -/
def hasCameras (st : ToolState) : Bool :=
  !st.cameras.isEmpty

/-- Modelled from the spec: AbstractTool::hasDepthLookup is declared outside
this excerpt; the spec requires "a non-empty depth-map lookup (keyed by
frame id)", failing when it is absent. -/
def hasDepthLookup (st : ToolState) : Bool :=
  match st.depthLookup with
  | none => false
  | some l => !l.isEmpty

/-- external collaborators of execute: the result of readConfig for
"gui_integrate_depth_maps.conf", and
integrate_depth_maps::check_nested_algo_configuration for BLOCK_IDM. -/
structure ExecEnv where
  readConfig : Option Config
  checkNested : Config → Bool

/-- the message boxes execute can show. -/
inductive ToolMessage where
  | insufficientData
  | configNotFound
  | configInvalid
deriving DecidableEq

/-- a message is one of the two "Configuration error" boxes. -/
def ToolMessage.isConfigError : ToolMessage → Bool
  | .insufficientData => false
  | .configNotFound => true
  | .configInvalid => true

/-- observable outcome of execute: the returned flag, the message box shown
(if any), whether readConfig was reached, the value of d->fuse_algo after
the call (recorded as the merged configuration set_nested_algo_configuration
was given; none models the initial null pointer), and whether control
reached AbstractTool::execute. -/
structure ExecOutcome where
  returned : Bool
  message : Option ToolMessage
  configRead : Bool
  algo : Option Config
  ranTool : Bool

/-- FuseDepthTool::execute from FuseDepthTool.cxx. -/
def FuseDepthTool.execute (st : ToolState) (env : ExecEnv) : ExecOutcome :=
  if !(hasCameras st) || !(hasDepthLookup st) then
    { returned := false, message := some ToolMessage.insufficientData,
      configRead := false, algo := none, ranTool := false }
  else
    match env.readConfig with
    | none =>
      { returned := false, message := some ToolMessage.configNotFound,
        configRead := true, algo := none, ranTool := false }
    | some fileConfig =>
      let config := merge_config fileConfig st.ambientConfig
      if !(env.checkNested config) then
        { returned := false, message := some ToolMessage.configInvalid,
          configRead := true, algo := none, ranTool := false }
      else
        { returned := true, message := none,
          configRead := true, algo := some config, ranTool := true }

/-- the state read by run: the dereferenced depth-map lookup (a std::map,
iterated in order), the camera map, the ROI corners from GetXMin/GetXMax,
and the host cancellation signal (which the source never consults). -/
structure RunState where
  depths : List (FrameId × PathName)
  cameras : List (FrameId × Camera)
  roiMin : Vec3
  roiMax : Vec3
  cancelRequested : Bool

/-- external collaborators of run: the filesystem (what the VTK reader
returns for each path) and the configured integrate_depth_maps algorithm
(min point, max point, depth maps, cameras ↦ volume and spacing). -/
structure RunEnv where
  files : PathName → VtkImageFile
  integrate : Vec3 → Vec3 → List (Option DepthImage) → List (Option Camera) →
    VolumeImage × Vec3

/-- the collection loop of run: for each entry of the depth-map lookup in
order, skip it when the camera map has no entry for its frame id, otherwise
push the dynamic_cast of the camera and the loaded depth map. -/
def collectInputs (files : PathName → VtkImageFile)
    (depths : List (FrameId × PathName)) (cameras : List (FrameId × Camera)) :
    List (Option Camera) × List (Option DepthImage) :=
  match depths with
  | [] => ([], [])
  | e :: rest =>
    match cameras.lookup e.1 with
    | none => collectInputs files rest cameras
    | some cam =>
      let p := collectInputs files rest cameras
      (dynCastPerspective cam :: p.1, load_depth_map (files e.2) :: p.2)

/-- observable outcome of run: the two parallel vectors handed to
integrate, the fact that integrate was invoked, and the structured grid
handed to updateFusion. -/
structure RunOutcome where
  camerasOut : List (Option Camera)
  depthsOut : List (Option DepthImage)
  integrateCalled : Bool
  published : StructuredGrid

/-- FuseDepthTool::run from FuseDepthTool.cxx. -/
def FuseDepthTool.run (st : RunState) (env : RunEnv) : RunOutcome :=
  let pairs := collectInputs env.files st.depths st.cameras
  let minpt := st.roiMin
  let maxpt := st.roiMax
  let res := env.integrate minpt maxpt pairs.2 pairs.1
  { camerasOut := pairs.1,
    depthsOut := pairs.2,
    integrateCalled := true,
    published := volume_to_vtk res.1 minpt res.2 }

/-- entries of the depth-map lookup whose frame id also has a camera. -/
def pairedEntries (depths : List (FrameId × PathName))
    (cameras : List (FrameId × Camera)) : List (FrameId × PathName) :=
  depths.filter (fun e => (cameras.lookup e.1).isSome)

/-! Helper lemmas about the depth-map loading loop. -/

theorem depthRowAux_out (w y : Nat) (vals : List ℚ) :
    ∀ n x ptId mem idx, w - x ≤ n → (idx < y * w + x ∨ y * w + w ≤ idx) →
      depthRowAux w y vals x ptId mem idx = mem idx := by
  intro n
  induction n with
  | zero =>
    intro x ptId mem idx hn hidx
    rw [depthRowAux]
    split
    · omega
    · rfl
  | succ n ih =>
    intro x ptId mem idx hn hidx
    rw [depthRowAux]
    split
    · rw [ih (x + 1) (ptId + 1) _ idx (by omega) (by omega)]
      have hne : idx ≠ y * w + x := by omega
      simp [hne]
    · rfl

theorem depthRowAux_get (w y : Nat) (vals : List ℚ) :
    ∀ n x0 ptId mem x, w - x0 ≤ n → x0 ≤ x → x < w →
      depthRowAux w y vals x0 ptId mem (y * w + x) = vals.getD (ptId + (x - x0)) 0 := by
  intro n
  induction n with
  | zero => intro x0 ptId mem x hn hx0 hx; omega
  | succ n ih =>
    intro x0 ptId mem x hn hx0 hx
    rw [depthRowAux]
    split
    · by_cases hcase : x = x0
      · subst hcase
        rw [depthRowAux_out w y vals (n + 1) (x + 1) (ptId + 1) _ (y * w + x)
              (by omega) (by omega)]
        simp
      · rw [ih (x0 + 1) (ptId + 1) _ x (by omega) (by omega) hx]
        have harith : ptId + 1 + (x - (x0 + 1)) = ptId + (x - x0) := by omega
        rw [harith]
    · omega

theorem depthCols_out (w : Nat) (vals : List ℚ) :
    ∀ r ptId mem idx, r * w ≤ idx →
      depthCols w vals r ptId mem idx = mem idx := by
  intro r
  induction r with
  | zero => intro ptId mem idx hidx; rfl
  | succ r ih =>
    intro ptId mem idx hidx
    rw [Nat.succ_mul] at hidx
    rw [depthCols, ih (ptId + w) _ idx (by omega)]
    exact depthRowAux_out w r vals (w - 0) 0 ptId mem idx (by omega) (by omega)

theorem depthCols_get (w : Nat) (vals : List ℚ) :
    ∀ r ptId mem y x, y < r → x < w →
      depthCols w vals r ptId mem (y * w + x) =
        vals.getD (ptId + ((r - 1 - y) * w + x)) 0 := by
  intro r
  induction r with
  | zero => intro ptId mem y x hy hx; omega
  | succ r ih =>
    intro ptId mem y x hy hx
    rw [depthCols]
    by_cases hcase : y = r
    · subst hcase
      rw [depthCols_out w vals y (ptId + w) _ (y * w + x) (by omega)]
      rw [depthRowAux_get w y vals (w - 0) 0 ptId mem x (by omega) (by omega) hx]
      have harith : y + 1 - 1 - y = 0 := by omega
      rw [harith]
      simp
    · have hy' : y < r := by omega
      rw [ih (ptId + w) _ y x hy' hx]
      have harith : (y + 1 : Nat) ≤ r := hy'
      have h1 : r + 1 - 1 - y = (r - 1 - y) + 1 := by omega
      have h2 : ((r - 1 - y) + 1) * w = (r - 1 - y) * w + w := Nat.succ_mul _ _
      have h3 : ptId + w + ((r - 1 - y) * w + x) =
          ptId + (((r - 1 - y) + 1) * w + x) := by
        rw [h2]; omega
      rw [h3, h1]

/-! Helper lemmas about flattened range iterations and lookup. -/

theorem flatMap_range_length {α : Type} (F : Nat → List α) (L : Nat)
    (h : ∀ m, (F m).length = L) :
    ∀ n, ((List.range n).flatMap F).length = n * L := by
  intro n
  induction n with
  | zero => simp
  | succ n ih =>
    rw [List.range_succ, List.flatMap_append]
    simp [ih, h, Nat.succ_mul]

theorem flatMap_range_getElem {α : Type} (F : Nat → List α) (L : Nat)
    (h : ∀ m, (F m).length = L) :
    ∀ n k r, k < n → r < L →
      ((List.range n).flatMap F)[k * L + r]? = (F k)[r]? := by
  intro n
  induction n with
  | zero => intro k r hk hr; omega
  | succ n ih =>
    intro k r hk hr
    rw [List.range_succ, List.flatMap_append]
    by_cases hcase : k = n
    · subst hcase
      rw [List.getElem?_append_right
            (by rw [flatMap_range_length F L h]; omega)]
      rw [flatMap_range_length F L h]
      have hsub : k * L + r - k * L = r := by omega
      rw [hsub]
      simp
    · have hk2 : k < n := by omega
      rw [List.getElem?_append_left (by
            rw [flatMap_range_length F L h]
            have h1 : k * L + r < k * L + L := by omega
            have h2 : (k + 1) * L ≤ n * L := Nat.mul_le_mul_right L (by omega)
            rw [Nat.succ_mul] at h2
            omega)]
      exact ih k r hk2 hr

theorem lookup_isSome_iff {β : Type} (a : Nat) (l : List (Nat × β)) :
    (l.lookup a).isSome ↔ a ∈ l.map Prod.fst := by
  induction l with
  | nil => simp [List.lookup]
  | cons p t ih =>
    cases p with
    | mk k v =>
      by_cases h : a = k
      · subst h; simp [List.lookup]
      · simp [List.lookup, beq_false_of_ne h, ih, h]

theorem collectInputs_eq (files : PathName → VtkImageFile)
    (cameras : List (FrameId × Camera)) :
    ∀ depths, collectInputs files depths cameras =
      ((pairedEntries depths cameras).map
         (fun e => (cameras.lookup e.1).bind dynCastPerspective),
       (pairedEntries depths cameras).map
         (fun e => load_depth_map (files e.2))) := by
  intro depths
  induction depths with
  | nil => rfl
  | cons e rest ih =>
    rw [collectInputs]
    cases hlk : cameras.lookup e.1 with
    | none => simp [pairedEntries, List.filter_cons, hlk] at ih ⊢; exact ih
    | some cam => simp [pairedEntries, List.filter_cons, hlk, ih]

theorem volume_to_vtk_points_mem (vol : VolumeImage) (o s : Vec3) (p : Vec3) :
    p ∈ (volume_to_vtk vol o s).points ↔
      ∃ (i j k : Nat), i < vol.width ∧ j < vol.height ∧ k < vol.depth ∧
        p = { x := o.x + s.x * (i : ℚ), y := o.y + s.y * (j : ℚ),
              z := o.z + s.z * (k : ℚ) } := by
  constructor
  · intro h
    obtain ⟨k, hk, h2⟩ := List.mem_flatMap.mp h
    obtain ⟨j, hj, h3⟩ := List.mem_flatMap.mp h2
    obtain ⟨i, hi, h4⟩ := List.mem_map.mp h3
    exact ⟨i, j, k, List.mem_range.mp hi, List.mem_range.mp hj,
      List.mem_range.mp hk, h4.symm⟩
  · rintro ⟨i, j, k, hi, hj, hk, rfl⟩
    refine List.mem_flatMap.mpr ⟨k, List.mem_range.mpr hk, ?_⟩
    refine List.mem_flatMap.mpr ⟨j, List.mem_range.mpr hj, ?_⟩
    exact List.mem_map.mpr ⟨i, List.mem_range.mpr hi, rfl⟩

theorem volume_to_vtk_points_x (vol : VolumeImage) (o s : Vec3)
    (hh : 0 < vol.height) (hd : 0 < vol.depth) (q : ℚ) :
    q ∈ ((volume_to_vtk vol o s).points.map Vec3.x) ↔
      ∃ (i : Nat), i < vol.width ∧ q = o.x + s.x * (i : ℚ) := by
  rw [List.mem_map]
  constructor
  · rintro ⟨p, hp, rfl⟩
    obtain ⟨i, j, k, hi, hj, hk, rfl⟩ := (volume_to_vtk_points_mem vol o s p).mp hp
    exact ⟨i, hi, rfl⟩
  · rintro ⟨i, hi, rfl⟩
    refine ⟨{ x := o.x + s.x * (i : ℚ), y := o.y + s.y * ((0 : Nat) : ℚ),
              z := o.z + s.z * ((0 : Nat) : ℚ) }, ?_, rfl⟩
    exact (volume_to_vtk_points_mem vol o s _).mpr ⟨i, 0, 0, hi, hh, hd, rfl⟩

theorem volume_to_vtk_points_y (vol : VolumeImage) (o s : Vec3)
    (hw : 0 < vol.width) (hd : 0 < vol.depth) (q : ℚ) :
    q ∈ ((volume_to_vtk vol o s).points.map Vec3.y) ↔
      ∃ (j : Nat), j < vol.height ∧ q = o.y + s.y * (j : ℚ) := by
  rw [List.mem_map]
  constructor
  · rintro ⟨p, hp, rfl⟩
    obtain ⟨i, j, k, hi, hj, hk, rfl⟩ := (volume_to_vtk_points_mem vol o s p).mp hp
    exact ⟨j, hj, rfl⟩
  · rintro ⟨j, hj, rfl⟩
    refine ⟨{ x := o.x + s.x * ((0 : Nat) : ℚ), y := o.y + s.y * (j : ℚ),
              z := o.z + s.z * ((0 : Nat) : ℚ) }, ?_, rfl⟩
    exact (volume_to_vtk_points_mem vol o s _).mpr ⟨0, j, 0, hw, hj, hd, rfl⟩

theorem volume_to_vtk_points_z (vol : VolumeImage) (o s : Vec3)
    (hw : 0 < vol.width) (hh : 0 < vol.height) (q : ℚ) :
    q ∈ ((volume_to_vtk vol o s).points.map Vec3.z) ↔
      ∃ (k : Nat), k < vol.depth ∧ q = o.z + s.z * (k : ℚ) := by
  rw [List.mem_map]
  constructor
  · rintro ⟨p, hp, rfl⟩
    obtain ⟨i, j, k, hi, hj, hk, rfl⟩ := (volume_to_vtk_points_mem vol o s p).mp hp
    exact ⟨k, hk, rfl⟩
  · rintro ⟨k, hk, rfl⟩
    refine ⟨{ x := o.x + s.x * ((0 : Nat) : ℚ), y := o.y + s.y * ((0 : Nat) : ℚ),
              z := o.z + s.z * (k : ℚ) }, ?_, rfl⟩
    exact (volume_to_vtk_points_mem vol o s _).mpr ⟨0, 0, k, hw, hh, hk, rfl⟩

theorem affine_list_bounds (l : List ℚ) (a b : ℚ) (hb : 0 < b) (n : Nat) (hn : 0 < n)
    (hmem : ∀ q, q ∈ l ↔ ∃ (i : Nat), i < n ∧ q = a + b * (i : ℚ)) :
    l.minimum = ((a : ℚ) : WithBot ℚ) ∧
      l.maximum = ((a + b * ((n : ℚ) - 1) : ℚ) : WithBot ℚ) := by
  refine ⟨List.minimum_eq_coe_iff.mpr ⟨?_, ?_⟩, List.maximum_eq_coe_iff.mpr ⟨?_, ?_⟩⟩
  · rw [hmem]; exact ⟨0, hn, by simp⟩
  · intro q hq
    obtain ⟨i, hi, rfl⟩ := (hmem q).mp hq
    have hnn : (0 : ℚ) ≤ b * (i : ℚ) := mul_nonneg hb.le (by positivity)
    linarith
  · rw [hmem]
    refine ⟨n - 1, by omega, ?_⟩
    rw [Nat.cast_sub (by omega : 1 ≤ n), Nat.cast_one]
  · intro q hq
    obtain ⟨i, hi, rfl⟩ := (hmem q).mp hq
    have h1 : (i : ℚ) ≤ (n : ℚ) - 1 := by
      have h0 : ((i + 1 : Nat) : ℚ) ≤ ((n : Nat) : ℚ) := by exact_mod_cast hi
      push_cast at h0
      linarith
    have h2 : b * (i : ℚ) ≤ b * ((n : ℚ) - 1) :=
      mul_le_mul_of_nonneg_left h1 hb.le
    linarith

theorem volume_scalar_values_length (vol : VolumeImage) :
    (volume_scalar_values vol).length = vol.width * vol.height * vol.depth := by
  unfold volume_scalar_values
  have hinner : ∀ k, ((List.range vol.height).flatMap (fun j =>
      (List.range vol.width).map (fun i => vol.atVox i j k))).length =
        vol.height * vol.width := fun k =>
    flatMap_range_length _ vol.width (fun j => by simp) vol.height
  rw [flatMap_range_length _ (vol.height * vol.width) hinner vol.depth]
  ring

theorem volume_scalar_values_getElem (vol : VolumeImage) (i j k : Nat)
    (hi : i < vol.width) (hj : j < vol.height) (hk : k < vol.depth) :
    (volume_scalar_values vol)[(k * vol.height + j) * vol.width + i]? =
      some (vol.atVox i j k) := by
  unfold volume_scalar_values
  have hidx : (k * vol.height + j) * vol.width + i =
      k * (vol.height * vol.width) + (j * vol.width + i) := by ring
  rw [hidx]
  have hinner : ∀ m, ((List.range vol.height).flatMap (fun j =>
      (List.range vol.width).map (fun i => vol.atVox i j m))).length =
        vol.height * vol.width := fun m =>
    flatMap_range_length _ vol.width (fun j => by simp) vol.height
  have hr : j * vol.width + i < vol.height * vol.width := by
    have h2 : j * vol.width + vol.width ≤ vol.height * vol.width := by
      have h3 := Nat.mul_le_mul_right vol.width (show j + 1 ≤ vol.height from hj)
      rw [Nat.succ_mul] at h3
      exact h3
    omega
  rw [flatMap_range_getElem _ (vol.height * vol.width) hinner vol.depth k
        (j * vol.width + i) hk hr]
  rw [flatMap_range_getElem _ vol.width (fun m => by simp) vol.height j i hj hi]
  simp [List.getElem?_range hi]

/-! Concrete sample inputs used by the witnesses and counterexamples. -/

/-- a 3-wide, 2-high depth-map file with distinct values at every grid
point: row 0 of the file is 10, 11, 12 and row 1 is 20, 21, 22. -/
def sampleDepthFile : VtkImageFile :=
  { dimX := 3, dimY := 2, dimZ := 1,
    pointArrays := [{ name := depthsArrayName, isDouble := true,
                      values := [10, 11, 12, 20, 21, 22] }] }

/-- a file whose "Depths" array is present but not double-precision, so the
dynamic_cast in the source yields null. -/
def badDepthFile : VtkImageFile :=
  { dimX := 3, dimY := 2, dimZ := 1,
    pointArrays := [{ name := depthsArrayName, isDouble := false,
                      values := [10, 11, 12, 20, 21, 22] }] }

/-- a 2×2×2 volume whose voxel buffer holds its own linear index. -/
def vol222 : VolumeImage :=
  { width := 2, height := 2, depth := 2, mem := fun idx => (idx : ℚ) }

def originZero : Vec3 := { x := 0, y := 0, z := 0 }

def spacingOne : Vec3 := { x := 1, y := 1, z := 1 }

def cam2 : Camera := { camId := 2, perspective := true }

def cam3 : Camera := { camId := 3, perspective := false }

def cam4 : Camera := { camId := 4, perspective := true }

def pathA : PathName := "depth_1.vti"

def pathB : PathName := "depth_2.vti"

def pathC : PathName := "depth_3.vti"

/-- depth-map lookup with frames 1, 2, 3. -/
def sampleDepths : List (FrameId × PathName) := [(1, pathA), (2, pathB), (3, pathC)]

/-- camera map with frames 2, 3, 4 (frame 3 not perspective). -/
def sampleCameras : List (FrameId × Camera) := [(2, cam2), (3, cam3), (4, cam4)]

def sampleRunState : RunState :=
  { depths := sampleDepths, cameras := sampleCameras,
    roiMin := originZero, roiMax := spacingOne, cancelRequested := false }

def cancelledRunState : RunState := { sampleRunState with cancelRequested := true }

def sampleRunEnv : RunEnv :=
  { files := fun _ => sampleDepthFile,
    integrate := fun _ _ _ _ => (vol222, spacingOne) }

def keyShared : String := "integrate_depth_maps:type"

def fileValue : String := "from_file"

def ambientValue : String := "from_tool"

/-- file configuration binding the shared key to the file's value. -/
def fileConfigSample : Config :=
  fun k => if k = keyShared then some fileValue else none

/-- ambient tool configuration binding the shared key to its own value. -/
def ambientConfigSample : Config :=
  fun k => if k = keyShared then some ambientValue else none

def goodToolState : ToolState :=
  { cameras := sampleCameras, depthLookup := some sampleDepths,
    ambientConfig := ambientConfigSample }

def noCameraState : ToolState :=
  { cameras := [], depthLookup := some sampleDepths,
    ambientConfig := ambientConfigSample }

def noConfigEnv : ExecEnv :=
  { readConfig := none, checkNested := fun _ => true }

def goodExecEnv : ExecEnv :=
  { readConfig := some fileConfigSample, checkNested := fun _ => true }

/-- C2: for a depth-map file of width w and height h whose "Depths" array
holds v[y][x] in row-major order, load_depth_map returns an image with
depth.at(x, y) = v[h-1-y][x] for all x < w, y < h: row order is inverted,
column order is preserved. -/
theorem load_depth_map_row_inverted (f : VtkImageFile) (vals : List ℚ) (x y : Nat)
    (hv : getDoubleArray f depthsArrayName = some vals)
    (hlen : f.dimX * f.dimY ≤ vals.length)
    (hx : x < f.dimX) (hy : y < f.dimY) :
    ∃ img, load_depth_map f = some img ∧ img.width = f.dimX ∧
      img.height = f.dimY ∧
      img.atPix x y = vals.getD ((f.dimY - 1 - y) * f.dimX + x) 0 := by
  have hload : load_depth_map f =
      some { width := f.dimX, height := f.dimY, planes := f.dimZ,
             mem := depthCols f.dimX vals f.dimY 0 (fun _ => 0) } := by
    unfold load_depth_map
    rw [hv]
    simp [hlen]
  refine ⟨_, hload, rfl, rfl, ?_⟩
  show depthCols f.dimX vals f.dimY 0 (fun _ => 0) (y * f.dimX + x) = _
  rw [depthCols_get f.dimX vals f.dimY 0 (fun _ => 0) y x hy hx, Nat.zero_add]

/-- C2 witness: on a 3×2 file with rows 10 11 12 / 20 21 22, pixel (0, 0)
of the loaded image holds the value stored at file index 3. -/
theorem load_depth_map_row_inverted_witness :
    ∃ img, load_depth_map sampleDepthFile = some img ∧
      img.width = sampleDepthFile.dimX ∧ img.height = sampleDepthFile.dimY ∧
      img.atPix 0 0 =
        List.getD [10, 11, 12, 20, 21, 22]
          ((sampleDepthFile.dimY - 1 - 0) * sampleDepthFile.dimX + 0) 0 :=
  load_depth_map_row_inverted sampleDepthFile [10, 11, 12, 20, 21, 22] 0 0
    rfl (by decide) (by decide) (by decide)

/-- C8: load_depth_map produces a populated image exactly when the file's
point data carries a double-precision array named "Depths" covering the
grid; when the array is absent or of the wrong element type the failed
dynamic_cast leaves nothing to read (none, the undefined execution), and no
decode error is reported — the codomain has no error value at all. -/
theorem load_depth_map_requires_depths_array (f : VtkImageFile) :
    (getDoubleArray f depthsArrayName = none → load_depth_map f = none) ∧
    (∀ vals, getDoubleArray f depthsArrayName = some vals →
      f.dimX * f.dimY ≤ vals.length → (load_depth_map f).isSome = true) := by
  constructor
  · intro h
    unfold load_depth_map
    rw [h]
  · intro vals hv hlen
    unfold load_depth_map
    rw [hv]
    simp [hlen]

/-- C8 witness: the non-double file loads to nothing, the good file loads
to a populated image. -/
theorem load_depth_map_requires_depths_array_witness :
    (load_depth_map badDepthFile = none) ∧
    (load_depth_map sampleDepthFile).isSome = true :=
  ⟨(load_depth_map_requires_depths_array badDepthFile).1 rfl,
   (load_depth_map_requires_depths_array sampleDepthFile).2
     [10, 11, 12, 20, 21, 22] rfl (by decide)⟩

/-- C3: with an empty camera set or an empty-or-absent depth-map lookup,
execute shows the "Insufficient data" box and returns false at once: no
configuration is read, no algorithm is set, and the tool is not run. -/
theorem fuse_execute_insufficient_data (st : ToolState) (env : ExecEnv)
    (h : hasCameras st = false ∨ hasDepthLookup st = false) :
    FuseDepthTool.execute st env =
      { returned := false, message := some ToolMessage.insufficientData,
        configRead := false, algo := none, ranTool := false } := by
  unfold FuseDepthTool.execute
  rcases h with h | h <;> simp [h]

/-- C3 witness: the state with no cameras fails with the insufficient-data
outcome. -/
theorem fuse_execute_insufficient_data_witness :
    hasCameras noCameraState = false ∧
    FuseDepthTool.execute noCameraState goodExecEnv =
      { returned := false, message := some ToolMessage.insufficientData,
        configRead := false, algo := none, ranTool := false } :=
  ⟨rfl, fuse_execute_insufficient_data noCameraState goodExecEnv (Or.inl rfl)⟩

/-- C4: when the configuration resource is missing, or the nested
integrate_depth_maps validation fails on the merged configuration, execute
shows a "Configuration error" box, returns false, never sets the algorithm
and never reaches the tool run. -/
theorem fuse_execute_config_error (st : ToolState) (env : ExecEnv)
    (hc : hasCameras st = true) (hdl : hasDepthLookup st = true)
    (h : env.readConfig = none ∨
      ∃ fileConfig, env.readConfig = some fileConfig ∧
        env.checkNested (merge_config fileConfig st.ambientConfig) = false) :
    (FuseDepthTool.execute st env).algo = none ∧
    (FuseDepthTool.execute st env).returned = false ∧
    (FuseDepthTool.execute st env).ranTool = false ∧
    ∃ m, (FuseDepthTool.execute st env).message = some m ∧
      m.isConfigError = true := by
  rcases h with h | ⟨fc, hrc, hchk⟩
  · have hout : FuseDepthTool.execute st env =
        { returned := false, message := some ToolMessage.configNotFound,
          configRead := true, algo := none, ranTool := false } := by
      unfold FuseDepthTool.execute
      rw [h]
      simp [hc, hdl]
    rw [hout]
    exact ⟨rfl, rfl, rfl, ToolMessage.configNotFound, rfl, rfl⟩
  · have hout : FuseDepthTool.execute st env =
        { returned := false, message := some ToolMessage.configInvalid,
          configRead := true, algo := none, ranTool := false } := by
      unfold FuseDepthTool.execute
      rw [hrc]
      simp [hc, hdl, hchk]
    rw [hout]
    exact ⟨rfl, rfl, rfl, ToolMessage.configInvalid, rfl, rfl⟩

/-- C4 witness: a missing configuration resource yields the config-error
outcome with no algorithm set. -/
theorem fuse_execute_config_error_witness :
    (FuseDepthTool.execute goodToolState noConfigEnv).algo = none ∧
    (FuseDepthTool.execute goodToolState noConfigEnv).returned = false ∧
    (FuseDepthTool.execute goodToolState noConfigEnv).ranTool = false ∧
    ∃ m, (FuseDepthTool.execute goodToolState noConfigEnv).message = some m ∧
      m.isConfigError = true :=
  fuse_execute_config_error goodToolState noConfigEnv rfl rfl (Or.inl rfl)

/-- C10: the file configuration is merged with the tool's ambient
configuration by copying the ambient entries over it, so on every key both
define the ambient value wins, and the algorithm is constructed from
exactly that merged configuration. -/
theorem fuse_execute_merge_precedence (st : ToolState) (env : ExecEnv)
    (fileConfig : Config)
    (hc : hasCameras st = true) (hdl : hasDepthLookup st = true)
    (hrc : env.readConfig = some fileConfig)
    (hchk : env.checkNested (merge_config fileConfig st.ambientConfig) = true) :
    (FuseDepthTool.execute st env).algo =
        some (merge_config fileConfig st.ambientConfig) ∧
    ∀ k v1 v2, fileConfig k = some v1 → st.ambientConfig k = some v2 →
      merge_config fileConfig st.ambientConfig k = some v2 := by
  constructor
  · unfold FuseDepthTool.execute
    rw [hrc]
    simp [hc, hdl, hchk]
  · intro k v1 v2 h1 h2
    unfold merge_config
    rw [h2]
    rfl

/-- C10 witness: with the sample file and ambient configurations sharing
one key, the merged configuration used for the algorithm holds the ambient
value on that key. -/
theorem fuse_execute_merge_precedence_witness :
    (FuseDepthTool.execute goodToolState goodExecEnv).algo =
        some (merge_config fileConfigSample ambientConfigSample) ∧
    merge_config fileConfigSample ambientConfigSample keyShared =
      some ambientValue := by
  have h := fuse_execute_merge_precedence goodToolState goodExecEnv
    fileConfigSample rfl rfl rfl rfl
  exact ⟨h.1, h.2 keyShared fileValue ambientValue rfl rfl⟩

/-- C5 counterexample: for the 2×2×2 volume at origin (0,0,0) with unit
spacing the claim puts the bounding box at [0,2] per axis, but the largest
x coordinate of any grid point is 1, not 2 (the extent is
origin + (dimension - 1) × spacing). -/
theorem volume_to_vtk_extent_cex :
    ¬ (((volume_to_vtk vol222 originZero spacingOne).points.map Vec3.x).maximum
        = ((2 : ℚ) : WithBot ℚ)) := by
  have h := affine_list_bounds
    ((volume_to_vtk vol222 originZero spacingOne).points.map Vec3.x)
    originZero.x spacingOne.x (by decide) vol222.width (by decide)
    (volume_to_vtk_points_x vol222 originZero spacingOne (by decide) (by decide))
  intro heq
  rw [h.2] at heq
  have hq : (originZero.x + spacingOne.x * ((vol222.width : ℚ) - 1) : ℚ) = (2 : ℚ) := by
    exact_mod_cast heq
  norm_num [originZero, spacingOne, vol222] at hq

/-- C5 (amended): for every volume with positive dimensions, origin, and
positive spacing, the output grid's spatial extent per axis runs from the
origin to origin + (dimension - 1) × spacing, and the grid carries a single
scalar field with exactly width × height × depth cell values. -/
theorem volume_to_vtk_extent (vol : VolumeImage) (o s : Vec3)
    (hw : 0 < vol.width) (hh : 0 < vol.height) (hd : 0 < vol.depth)
    (hsx : 0 < s.x) (hsy : 0 < s.y) (hsz : 0 < s.z) :
    ((volume_to_vtk vol o s).points.map Vec3.x).minimum =
        ((o.x : ℚ) : WithBot ℚ) ∧
    ((volume_to_vtk vol o s).points.map Vec3.x).maximum =
        ((o.x + s.x * ((vol.width : ℚ) - 1) : ℚ) : WithBot ℚ) ∧
    ((volume_to_vtk vol o s).points.map Vec3.y).minimum =
        ((o.y : ℚ) : WithBot ℚ) ∧
    ((volume_to_vtk vol o s).points.map Vec3.y).maximum =
        ((o.y + s.y * ((vol.height : ℚ) - 1) : ℚ) : WithBot ℚ) ∧
    ((volume_to_vtk vol o s).points.map Vec3.z).minimum =
        ((o.z : ℚ) : WithBot ℚ) ∧
    ((volume_to_vtk vol o s).points.map Vec3.z).maximum =
        ((o.z + s.z * ((vol.depth : ℚ) - 1) : ℚ) : WithBot ℚ) ∧
    ∃ arr, (volume_to_vtk vol o s).cellArrays = [arr] ∧
      arr.values.length = vol.width * vol.height * vol.depth := by
  have hx := affine_list_bounds _ o.x s.x hsx vol.width hw
    (volume_to_vtk_points_x vol o s hh hd)
  have hy := affine_list_bounds _ o.y s.y hsy vol.height hh
    (volume_to_vtk_points_y vol o s hw hd)
  have hz := affine_list_bounds _ o.z s.z hsz vol.depth hd
    (volume_to_vtk_points_z vol o s hw hh)
  exact ⟨hx.1, hx.2, hy.1, hy.2, hz.1, hz.2, _, rfl,
    volume_scalar_values_length vol⟩

/-- C5 witness: the amended extent applied to the 2×2×2 unit-spacing
volume at the origin. -/
theorem volume_to_vtk_extent_witness :
    ((volume_to_vtk vol222 originZero spacingOne).points.map Vec3.x).maximum =
        ((originZero.x + spacingOne.x * ((vol222.width : ℚ) - 1) : ℚ) : WithBot ℚ) ∧
    ((volume_to_vtk vol222 originZero spacingOne).points.map Vec3.x).minimum =
        ((originZero.x : ℚ) : WithBot ℚ) :=
  have h := volume_to_vtk_extent vol222 originZero spacingOne
    (by decide) (by decide) (by decide) (by decide) (by decide) (by decide)
  ⟨h.2.1, h.1⟩

/-- C6: volume_to_vtk attaches exactly one cell-data scalar array, named
"reconstruction_scalar", holding width × height × depth values with
vol.at(i, j, k) stored at linear index (k * height + j) * width + i. -/
theorem volume_to_vtk_scalar_field (vol : VolumeImage) (o s : Vec3) (i j k : Nat)
    (hi : i < vol.width) (hj : j < vol.height) (hk : k < vol.depth) :
    ∃ arr, (volume_to_vtk vol o s).cellArrays = [arr] ∧
      arr.name = reconstructionScalarName ∧
      arr.values.length = vol.width * vol.height * vol.depth ∧
      arr.values[(k * vol.height + j) * vol.width + i]? =
        some (vol.atVox i j k) :=
  ⟨_, rfl, rfl, volume_scalar_values_length vol,
    volume_scalar_values_getElem vol i j k hi hj hk⟩

/-- C6 witness: the scalar array of the 2×2×2 sample volume at voxel
(1, 0, 1), linear index 5. -/
theorem volume_to_vtk_scalar_field_witness :
    ∃ arr, (volume_to_vtk vol222 originZero spacingOne).cellArrays = [arr] ∧
      arr.name = reconstructionScalarName ∧
      arr.values.length = vol222.width * vol222.height * vol222.depth ∧
      arr.values[(1 * vol222.height + 0) * vol222.width + 1]? =
        some (vol222.atVox 1 0 1) :=
  volume_to_vtk_scalar_field vol222 originZero spacingOne 1 0 1
    (by decide) (by decide) (by decide)

/-- C7: run hands the volume returned by integrate to volume_to_vtk with
the ROI minimum point as origin and the returned spacing, and publishes
exactly that grid; the image grid it is built from has the ROI minimum as
its origin. -/
theorem fuse_run_publishes_roi_min_grid (st : RunState) (env : RunEnv) :
    (FuseDepthTool.run st env).published =
      volume_to_vtk
        (env.integrate st.roiMin st.roiMax
          (collectInputs env.files st.depths st.cameras).2
          (collectInputs env.files st.depths st.cameras).1).1
        st.roiMin
        (env.integrate st.roiMin st.roiMax
          (collectInputs env.files st.depths st.cameras).2
          (collectInputs env.files st.depths st.cameras).1).2 ∧
    (volume_to_vtk_grid
        (env.integrate st.roiMin st.roiMax
          (collectInputs env.files st.depths st.cameras).2
          (collectInputs env.files st.depths st.cameras).1).1
        st.roiMin
        (env.integrate st.roiMin st.roiMax
          (collectInputs env.files st.depths st.cameras).2
          (collectInputs env.files st.depths st.cameras).1).2).origin =
      st.roiMin :=
  ⟨rfl, rfl⟩

/-- C9 counterexample: a run whose cancellation signal is raised before it
starts still loads both paired depth maps and still invokes integrate, so
the orchestrator does not check the signal between loads or before
integration. -/
theorem fuse_run_cancel_cex :
    cancelledRunState.cancelRequested = true ∧
    (FuseDepthTool.run cancelledRunState sampleRunEnv).integrateCalled = true ∧
    (FuseDepthTool.run cancelledRunState sampleRunEnv).depthsOut.length = 2 :=
  ⟨rfl, rfl, rfl⟩

/-- C9 (amended): run performs no cancellation check at all: its outcome —
including every depth-map load and the integrate call — is the same
whatever the cancellation signal, and integrate is always invoked. -/
theorem fuse_run_ignores_cancellation (st : RunState) (env : RunEnv) (b : Bool) :
    FuseDepthTool.run { st with cancelRequested := b } env =
        FuseDepthTool.run st env ∧
    (FuseDepthTool.run st env).integrateCalled = true :=
  ⟨rfl, rfl⟩

theorem mem_of_getElemOpt {α : Type} {l : List α} {n : Nat} {a : α}
    (h : l[n]? = some a) : a ∈ l := by
  obtain ⟨hlt, heq⟩ := List.getElem?_eq_some.mp h
  rw [← heq]
  exact List.getElem_mem hlt

/-- C1: the camera and depth-map lists run passes to integrate are parallel
lists of equal length, with exactly one entry per frame id present in both
the depth-map lookup and the camera map and no entries beyond those (frames
present in only one collection are skipped without error); entry n of both
lists comes from the n-th such frame. -/
theorem fuse_run_collects_exact_pairs (st : RunState) (env : RunEnv) :
    (FuseDepthTool.run st env).camerasOut.length =
        (FuseDepthTool.run st env).depthsOut.length ∧
    (FuseDepthTool.run st env).camerasOut.length =
        (pairedEntries st.depths st.cameras).length ∧
    (∀ fid : FrameId,
        fid ∈ (pairedEntries st.depths st.cameras).map Prod.fst ↔
          (fid ∈ st.depths.map Prod.fst ∧ fid ∈ st.cameras.map Prod.fst)) ∧
    (∀ (n : Nat) (e : FrameId × PathName),
        (pairedEntries st.depths st.cameras)[n]? = some e →
        ∃ cam, st.cameras.lookup e.1 = some cam ∧
          (FuseDepthTool.run st env).camerasOut[n]? =
            some (dynCastPerspective cam) ∧
          (FuseDepthTool.run st env).depthsOut[n]? =
            some (load_depth_map (env.files e.2))) := by
  have hc : (FuseDepthTool.run st env).camerasOut =
      (pairedEntries st.depths st.cameras).map
        (fun e => (st.cameras.lookup e.1).bind dynCastPerspective) := by
    show (collectInputs env.files st.depths st.cameras).1 = _
    rw [collectInputs_eq env.files st.cameras st.depths]
  have hd : (FuseDepthTool.run st env).depthsOut =
      (pairedEntries st.depths st.cameras).map
        (fun e => load_depth_map (env.files e.2)) := by
    show (collectInputs env.files st.depths st.cameras).2 = _
    rw [collectInputs_eq env.files st.cameras st.depths]
  refine ⟨?_, ?_, ?_, ?_⟩
  · rw [hc, hd]
    simp
  · rw [hc]
    simp
  · intro fid
    constructor
    · intro hmem
      obtain ⟨e, he, hfst⟩ := List.mem_map.mp hmem
      have he2 := List.mem_filter.mp he
      refine ⟨List.mem_map.mpr ⟨e, he2.1, hfst⟩, ?_⟩
      rw [← hfst]
      exact (lookup_isSome_iff e.1 st.cameras).mp he2.2
    · rintro ⟨hdep, hcam⟩
      obtain ⟨e, he, hfst⟩ := List.mem_map.mp hdep
      refine List.mem_map.mpr ⟨e, ?_, hfst⟩
      refine List.mem_filter.mpr ⟨he, ?_⟩
      exact (lookup_isSome_iff e.1 st.cameras).mpr (hfst ▸ hcam)
  · intro n e hn
    have hmem : e ∈ pairedEntries st.depths st.cameras := mem_of_getElemOpt hn
    have hfil := List.mem_filter.mp hmem
    obtain ⟨cam, hcam⟩ := Option.isSome_iff_exists.mp hfil.2
    refine ⟨cam, hcam, ?_, ?_⟩
    · rw [hc, List.getElem?_map, hn]
      simp [hcam]
    · rw [hd, List.getElem?_map, hn]
      rfl

/-- C1 witness: depth lookup has frames 1, 2, 3 and the camera map has
frames 2, 3, 4, so the paired frames are exactly 2 and 3; entry 0 of both
output lists comes from frame 2. -/
theorem fuse_run_collects_exact_pairs_witness :
    (FuseDepthTool.run sampleRunState sampleRunEnv).camerasOut.length =
        (FuseDepthTool.run sampleRunState sampleRunEnv).depthsOut.length ∧
    (FuseDepthTool.run sampleRunState sampleRunEnv).camerasOut.length =
        (pairedEntries sampleRunState.depths sampleRunState.cameras).length ∧
    ((2 : FrameId) ∈
        (pairedEntries sampleRunState.depths sampleRunState.cameras).map Prod.fst ↔
      ((2 : FrameId) ∈ sampleRunState.depths.map Prod.fst ∧
        (2 : FrameId) ∈ sampleRunState.cameras.map Prod.fst)) ∧
    ∃ cam, sampleRunState.cameras.lookup 2 = some cam ∧
      (FuseDepthTool.run sampleRunState sampleRunEnv).camerasOut[0]? =
        some (dynCastPerspective cam) ∧
      (FuseDepthTool.run sampleRunState sampleRunEnv).depthsOut[0]? =
        some (load_depth_map (sampleRunEnv.files pathB)) :=
  have h := fuse_run_collects_exact_pairs sampleRunState sampleRunEnv
  ⟨h.1, h.2.1, h.2.2.1 2, h.2.2.2 0 (2, pathB) rfl⟩
